import Mathlib

/-!
# The Lua bridge of `src/mge/MGEDemo.cpp`

A shallow embedding of the reflection bridge between the Lua interpreter and
the rttr registry: `PushToLuaStack`, `InvokeMethod`, `CallGlobalFromLua`,
`MetaTableName`, `CreateUserDatum`, `InvokeFuncOnUserDatum`, `IndexUserDatum`
and `NewIndexUserDatum`.

Conventions of the embedding.

* The Lua C API and rttr are external libraries; the fragments the bridge calls
  are modelled after their reference manuals (Lua 5.3, rttr 0.9.x).
* A `lua_Number` is modelled by the exact rational value of a finite double.
* `assert` is modelled with assertions enabled: a failed assertion ends the
  run with `Outcome.abort`.
* `luaL_error` never returns: it ends the run with `Outcome.error`.
* A key read with `lua_tostring` reaches rttr as a `const char*`, that is as
  the text before its first NUL character (`cString`); the type name in a
  closure upvalue was pushed from a C string and is given as that text.
* Behaviour that C or the Lua manual leaves undefined is `Outcome.undefined`;
  a table access that would need a metamethod call is `Outcome.needsInterpreter`.
-/

set_option autoImplicit false

namespace MGE

/-! ## Native side: the part of rttr the bridge consumes -/

/-- The `rttr::type` of a parameter, property or return value. -/
inductive NativeType where
  | void
  | int
  | float
  | other (name : String)
  deriving DecidableEq, Repr

/-- Result of `rttr::type::get_name()`. -/
def NativeType.get_name : NativeType → String
  | .void => "void"
  | .int => "int"
  | .float => "float"
  | .other n => n

/-- A data member of a native object. -/
inductive Scalar where
  | int (n : Int)
  | float (x : Rat)
  | blob (typeName : String) (repr : String)
  deriving DecidableEq, Repr

/-- The `rttr::variant`: invalid (default constructed, no data), the valid
`void` variant returned by a call of a `void` method, an `int`, a `float`, an
instance of a registered class, or a value of any other type. -/
inductive Variant where
  | invalid
  | void
  | int (n : Int)
  | float (x : Rat)
  | object (typeName : String) (fields : List (String × Scalar))
  | other (typeName : String) (repr : String)
  deriving DecidableEq, Repr

/-- Result of `variant::is_valid()`. -/
def Variant.is_valid : Variant → Bool
  | .invalid => false
  | _ => true

/-- Result of `variant::is_type<void>()`. -/
def Variant.is_type_void : Variant → Bool
  | .void => true
  | _ => false

/-- Result of `variant::get_type().get_name()`; the invalid type has an empty name. -/
def Variant.get_type_name : Variant → String
  | .invalid => ""
  | .void => "void"
  | .int _ => "int"
  | .float _ => "float"
  | .object t _ => t
  | .other t _ => t

/-- Conversion of a data member to the variant a property getter returns. -/
def Scalar.toVariant : Scalar → Variant
  | .int n => .int n
  | .float x => .float x
  | .blob t r => .other t r

/-- An `rttr::argument`: default constructed, or referring to an `int` or a `float`. -/
inductive Argument where
  | empty
  | int (n : Int)
  | float (x : Rat)
  deriving DecidableEq, Repr

/-- The type an argument carries, if any. -/
def Argument.type : Argument → Option NativeType
  | .empty => none
  | .int _ => some .int
  | .float _ => some .float

/-- A property descriptor; all properties of the source are member-object
pointers (`.property("x", &glm::vec3::x)`), so reading and writing go to the
data member of that name. -/
structure PropertyDesc where
  name : String
  type : NativeType
  deriving DecidableEq, Repr

/-- A method descriptor: `owner` is the declaring class (`none` for a free
function) and `thunk` the native code, taking the instance (the invalid
variant for a free function) and the arguments to the return value and the
instance after the call. -/
structure MethodDesc where
  name : String
  owner : Option String
  params : List NativeType
  thunk : Variant → List Argument → Variant × Variant

/-- A type descriptor; `ctor` holds the data members of a default constructed
object when a nullary constructor is registered. -/
structure TypeDesc where
  name : String
  isClass : Bool
  ctor : Option (List (String × Scalar))
  properties : List PropertyDesc
  methods : List MethodDesc

/-- The registry together with the two platform conversions the bridge relies
on: `toFloat` is the value of `(float)d` for a double of value `d`, and
`fmtNumber` the text `lua_tolstring` produces for a number. -/
structure Env where
  globals : List MethodDesc
  types : List TypeDesc
  toFloat : Rat → Rat
  fmtNumber : Rat → String

/-- Lookup `rttr::type::get_by_name`; `none` is the invalid type. -/
def Env.get_by_name (env : Env) (typeName : String) : Option TypeDesc :=
  env.types.find? (fun t => t.name == typeName)

/-- Lookup `type::get_method`; `none` is the invalid method. -/
def get_method (t : Option TypeDesc) (fieldName : String) : Option MethodDesc :=
  match t with
  | none => none
  | some d => d.methods.find? (fun m => m.name == fieldName)

/-- Lookup `type::get_property`; `none` is the invalid property. -/
def get_property (t : Option TypeDesc) (fieldName : String) : Option PropertyDesc :=
  match t with
  | none => none
  | some d => d.properties.find? (fun p => p.name == fieldName)

/-- Result of `type::create()` with no arguments: an instance when a nullary
constructor is registered, the invalid variant otherwise. -/
def create (t : Option TypeDesc) : Variant :=
  match t with
  | none => .invalid
  | some d =>
    match d.ctor with
    | some fs => .object d.name fs
    | none => .invalid

/-- Read of a data member. -/
def getField (name : String) : List (String × Scalar) → Option Scalar
  | [] => none
  | (k, v) :: rest => if k = name then some v else getField name rest

/-- Write of a data member. -/
def setField (name : String) (v : Scalar) : List (String × Scalar) → List (String × Scalar)
  | [] => [(name, v)]
  | (k, w) :: rest => if k = name then (k, v) :: rest else (k, w) :: setField name v rest

/-- Result of `property::get_value(ud)` for a property of class `owner`: the
data member, or the invalid variant when `ud` is no instance of the class. -/
def PropertyDesc.get_value (p : PropertyDesc) (owner : String) (ud : Variant) : Variant :=
  match ud with
  | .object t fs =>
    if t = owner then
      match getField p.name fs with
      | some v => v.toVariant
      | none => .invalid
    else .invalid
  | _ => .invalid

/-- Effect of `property::set_value(ud, arg)`: the instance after the write, or
`none` when rttr returns `false` (wrong instance or wrong argument type). -/
def PropertyDesc.set_value (p : PropertyDesc) (owner : String) (ud : Variant)
    (arg : Argument) : Option Variant :=
  match ud with
  | .object t fs =>
    if t = owner ∧ arg.type = some p.type then
      match arg with
      | .int n => some (.object t (setField p.name (.int n) fs))
      | .float x => some (.object t (setField p.name (.float x) fs))
      | .empty => none
    else none
  | _ => none

/-! ## Script side: the part of the Lua state the bridge touches -/

/-- The C functions the bridge registers as closures. -/
inductive CFunction where
  | CallGlobalFromLua
  | CreateUserDatum
  | DestroyUserDatum
  | InvokeFuncOnUserDatum
  | IndexUserDatum
  | NewIndexUserDatum
  deriving DecidableEq, Repr

/-- The single upvalue of a bridge closure. -/
inductive Upvalue where
  | str (s : String)
  | light (methodName : String)
  | udata (addr : Nat)
  deriving DecidableEq, Repr

/-- A Lua value; tables and full userdata are references into the heap. Light
userdata are left out: the bridge makes them only as closure upvalues, and no
script value is one. -/
inductive LuaValue where
  | nil
  | boolean (b : Bool)
  | number (x : Rat)
  | string (s : String)
  | table (addr : Nat)
  | userdata (addr : Nat)
  | cclosure (fn : CFunction) (up : Upvalue)
  | function (id : Nat)
  | thread (id : Nat)
  deriving DecidableEq, Repr

/-- The type tags `lua_type` returns. -/
inductive LuaType where
  | LUA_TNONE
  | LUA_TNIL
  | LUA_TBOOLEAN
  | LUA_TNUMBER
  | LUA_TSTRING
  | LUA_TTABLE
  | LUA_TFUNCTION
  | LUA_TUSERDATA
  | LUA_TTHREAD
  deriving DecidableEq, Repr

/-- The type tag of a value. -/
def LuaValue.luaType : LuaValue → LuaType
  | .nil => .LUA_TNIL
  | .boolean _ => .LUA_TBOOLEAN
  | .number _ => .LUA_TNUMBER
  | .string _ => .LUA_TSTRING
  | .table _ => .LUA_TTABLE
  | .userdata _ => .LUA_TUSERDATA
  | .cclosure _ _ => .LUA_TFUNCTION
  | .function _ => .LUA_TFUNCTION
  | .thread _ => .LUA_TTHREAD

/-- Result of `lua_typename`. -/
def lua_typename : LuaType → String
  | .LUA_TNONE => "no value"
  | .LUA_TNIL => "nil"
  | .LUA_TBOOLEAN => "boolean"
  | .LUA_TNUMBER => "number"
  | .LUA_TSTRING => "string"
  | .LUA_TTABLE => "table"
  | .LUA_TFUNCTION => "function"
  | .LUA_TUSERDATA => "userdata"
  | .LUA_TTHREAD => "thread"

/-- The memory block of a full userdatum: as left by `lua_newuserdata`, or
holding the `rttr::variant` or the `rttr::method` constructed into it. -/
inductive Payload where
  | raw
  | variant (v : Variant)
  | method (owner : String) (name : String)
  deriving DecidableEq, Repr

/-- A heap object: a table with its entries and metatable, or a full
userdatum with its block, metatable and associated user value. -/
inductive HeapObj where
  | table (entries : List (LuaValue × LuaValue)) (metatable : Option Nat)
  | udata (payload : Payload) (metatable : Option Nat) (uservalue : LuaValue)
  deriving DecidableEq, Repr

/-- One call of a native thunk, as recorded by `invoke_variadic`. -/
structure Invocation where
  method : String
  instance_ : Variant
  args : List Argument
  deriving DecidableEq, Repr

/-- The Lua state seen by a C function: its stack frame (slot 1 first), the
heap (an address is a position in the list), the metatables created by
`luaL_newmetatable` by name, the metatables shared by the values of a basic
type, and the record of native thunk calls made so far. -/
structure LuaState where
  stack : List LuaValue
  heap : List HeapObj
  registry : List (String × Nat)
  typeMT : List (LuaType × Nat)
  invoked : List Invocation
  deriving DecidableEq, Repr

/-- Why an assertion failed, with what was printed before it. -/
inductive Failure where
  | wrongArgCount (method : String) (expected : Nat) (got : Nat)
  | unrecognisedParam (typeName : String)
  | setValueFailed (property : String)
  deriving DecidableEq, Repr

/-- How a run of bridge code ends. -/
inductive Outcome (α : Type) where
  | ok (a : α) (s : LuaState)
  | error (msg : String) (s : LuaState)
  | abort (why : Failure) (s : LuaState)
  | undefined
  | needsInterpreter
  deriving DecidableEq, Repr

/-- Result of `luaL_error`: a script-language error raised in state `s`. -/
def luaL_error {α : Type} (s : LuaState) (msg : String) : Outcome α :=
  .error msg s

/-- Result of `lua_gettop`. -/
def lua_gettop (s : LuaState) : Nat :=
  s.stack.length

/-- The value at an acceptable stack index: positive from the bottom,
negative from the top. -/
def index2value (s : LuaState) (idx : Int) : Option LuaValue :=
  if 0 < idx then s.stack[idx.toNat - 1]?
  else if idx < 0 ∧ idx.natAbs ≤ s.stack.length then s.stack[s.stack.length - idx.natAbs]?
  else none

/-- Result of `lua_type`. -/
def lua_type (s : LuaState) (idx : Int) : LuaType :=
  match index2value s idx with
  | some v => v.luaType
  | none => .LUA_TNONE

/-- Result of `lua_tonumber` on a slot holding a number (0 on any other slot;
the bridge calls it only after `lua_type` returned `LUA_TNUMBER`). -/
def lua_tonumber (s : LuaState) (idx : Int) : Rat :=
  match index2value s idx with
  | some (.number x) => x
  | _ => 0

/-- Result of `lua_isuserdata`. -/
def lua_isuserdata (s : LuaState) (idx : Int) : Bool :=
  match index2value s idx with
  | some (.userdata _) => true
  | _ => false

/-- Result of `lua_isstring`: true for a string and for a number. -/
def lua_isstring (s : LuaState) (idx : Int) : Bool :=
  match index2value s idx with
  | some (.string _) => true
  | some (.number _) => true
  | _ => false

/-- Effect of pushing a value. -/
def push (s : LuaState) (v : LuaValue) : LuaState :=
  { s with stack := s.stack ++ [v] }

/-- Effect of `lua_pushnumber`. -/
def lua_pushnumber (s : LuaState) (x : Rat) : LuaState :=
  push s (.number x)

/-- Effect of `lua_pushvalue`; an unacceptable index is undefined. -/
def lua_pushvalue (s : LuaState) (idx : Int) : Option LuaState :=
  match index2value s idx with
  | some v => some (push s v)
  | none => none

/-- Smallest value of the native `int` (32 bits). -/
def INT_MIN : Int := -2147483648

/-- Largest value of the native `int` (32 bits). -/
def INT_MAX : Int := 2147483647

/-- The cast `(int)d` of a double of value `d`: truncation toward zero,
undefined (`none`) when the truncated value is not representable. -/
def castToInt (d : Rat) : Option Int :=
  let t := Int.tdiv d.num d.den
  if INT_MIN ≤ t ∧ t ≤ INT_MAX then some t else none

/-- Sequencing of two runs: the second starts where the first ended normally. -/
def Outcome.bind {α β : Type} (o : Outcome α) (f : α → LuaState → Outcome β) : Outcome β :=
  match o with
  | .ok a s => f a s
  | .error msg s => .error msg s
  | .abort why s => .abort why s
  | .undefined => .undefined
  | .needsInterpreter => .needsInterpreter

/-- The state in which a run ended, when it ended in one. -/
def Outcome.finalState {α : Type} : Outcome α → Option LuaState
  | .ok _ s => some s
  | .error _ s => some s
  | .abort _ s => some s
  | .undefined => none
  | .needsInterpreter => none

/-- Removal of the top `n` stack slots. -/
def pop (s : LuaState) (n : Nat) : LuaState :=
  { s with stack := s.stack.take (s.stack.length - n) }

/-- Result of `lua_touserdata`: the block address of a full userdatum, `none` for `NULL`. -/
def lua_touserdata (s : LuaState) (idx : Int) : Option Nat :=
  match index2value s idx with
  | some (.userdata a) => some a
  | _ => none

/-- The text a `const char*` to the bytes of a Lua string denotes: a Lua
string may hold NUL characters, a C string ends at the first one. -/
def cString (t : String) : String :=
  ⟨t.data.takeWhile (fun c => c ≠ Char.ofNat 0)⟩

/-- Result of `lua_tostring` on a positive index, as the `const char*` the
bridge takes it for: the text of the string in the slot up to its first NUL
character; a number is converted in place to a string first; `none` is
`NULL`. The slot itself keeps the whole Lua string. -/
def lua_tostring (fmtNumber : Rat → String) (s : LuaState) (idx : Nat) :
    Option (String × LuaState) :=
  match s.stack[idx - 1]? with
  | some (.string t) => some (cString t, s)
  | some (.number x) =>
    some (cString (fmtNumber x),
      { s with stack := s.stack.set (idx - 1) (.string (fmtNumber x)) })
  | _ => none

/-- Effect of `lua_newtable`: a fresh empty table is allocated and pushed. -/
def lua_newtable (s : LuaState) : LuaState :=
  { s with heap := s.heap ++ [.table [] none], stack := s.stack ++ [.table s.heap.length] }

/-- Effect of `lua_newuserdata`: a fresh block without metatable and with a
nil user value is allocated and pushed; the result also gives its address. -/
def lua_newuserdata (s : LuaState) : Nat × LuaState :=
  (s.heap.length,
   { s with heap := s.heap ++ [.udata .raw none .nil], stack := s.stack ++ [.userdata s.heap.length] })

/-- Effect of a placement `new` into the block at `addr`. -/
def construct (s : LuaState) (addr : Nat) (p : Payload) : Option LuaState :=
  match s.heap[addr]? with
  | some (.udata _ mt uv) => some { s with heap := s.heap.set addr (.udata p mt uv) }
  | _ => none

/-- Lookup in a list of named entries. -/
def lookupName {α : Type} (name : String) : List (String × α) → Option α
  | [] => none
  | (k, v) :: rest => if k = name then some v else lookupName name rest

/-- Effect of `luaL_getmetatable`: pushes the metatable registered under that
name, nil when there is none. -/
def luaL_getmetatable (s : LuaState) (name : String) : LuaState :=
  match lookupName name s.registry with
  | some a => push s (.table a)
  | none => push s .nil

/-- Update of the metatable shared by the values of one basic type. -/
def setTypeMT (t : LuaType) (mt : Option Nat) (l : List (LuaType × Nat)) : List (LuaType × Nat) :=
  match mt with
  | some a => (t, a) :: l.filter (fun e => e.1 ≠ t)
  | none => l.filter (fun e => e.1 ≠ t)

/-- Effect of `lua_setmetatable`: pops a table or nil and makes it the
metatable of the value at `idx`: of that table or userdatum itself, and of
all values of its type for any other value. -/
def lua_setmetatable (s : LuaState) (idx : Int) : Option LuaState :=
  match index2value s idx, s.stack.getLast? with
  | some obj, some top =>
    let mt? : Option (Option Nat) :=
      match top with
      | .nil => some none
      | .table a => some (some a)
      | _ => none
    match mt? with
    | none => none
    | some mt =>
      match obj with
      | .table a =>
        match s.heap[a]? with
        | some (.table es _) => some (pop { s with heap := s.heap.set a (.table es mt) } 1)
        | _ => none
      | .userdata a =>
        match s.heap[a]? with
        | some (.udata p _ uv) => some (pop { s with heap := s.heap.set a (.udata p mt uv) } 1)
        | _ => none
      | v => some (pop { s with typeMT := setTypeMT v.luaType mt s.typeMT } 1)
  | _, _ => none

/-- Effect of `lua_setuservalue`: pops a value and associates it with the
full userdatum at `idx`; undefined when the slot holds no full userdatum. -/
def lua_setuservalue (s : LuaState) (idx : Int) : Option LuaState :=
  match index2value s idx, s.stack.getLast? with
  | some (.userdata a), some top =>
    match s.heap[a]? with
    | some (.udata p mt _) => some (pop { s with heap := s.heap.set a (.udata p mt top) } 1)
    | _ => none
  | _, _ => none

/-- Effect of `lua_getuservalue`: pushes the value associated with the full
userdatum at `idx`; undefined when the slot holds no full userdatum. -/
def lua_getuservalue (s : LuaState) (idx : Int) : Option LuaState :=
  match index2value s idx with
  | some (.userdata a) =>
    match s.heap[a]? with
    | some (.udata _ _ uv) => some (push s uv)
    | _ => none
  | _ => none

/-- Raw read of a table entry; an absent key reads as nil. -/
def rawget (k : LuaValue) : List (LuaValue × LuaValue) → LuaValue
  | [] => .nil
  | (k', v) :: rest => if k' = k then v else rawget k rest

/-- Removal of a key from the entries of a table. -/
def rawErase (k : LuaValue) : List (LuaValue × LuaValue) → List (LuaValue × LuaValue)
  | [] => []
  | (k', v) :: rest => if k' = k then rawErase k rest else (k', v) :: rawErase k rest

/-- Raw write of a table entry; writing nil removes the key. -/
def rawset (k v : LuaValue) (es : List (LuaValue × LuaValue)) : List (LuaValue × LuaValue) :=
  if v = .nil then rawErase k es
  else (k, v) :: rawErase k es

/-- Lookup of the metatable shared by the values of a basic type. -/
def lookupType (t : LuaType) : List (LuaType × Nat) → Option Nat
  | [] => none
  | (k, a) :: rest => if k = t then some a else lookupType t rest

/-- The metatable of a value: `some none` when it has none, `none` when the
value refers to no live object. -/
def getmetatable (s : LuaState) (v : LuaValue) : Option (Option Nat) :=
  match v with
  | .table a =>
    match s.heap[a]? with
    | some (.table _ mt) => some mt
    | _ => none
  | .userdata a =>
    match s.heap[a]? with
    | some (.udata _ mt _) => some mt
    | _ => none
  | v => some (lookupType v.luaType s.typeMT)

/-- Effect of `lua_gettable`: replaces the key on top of the stack by the
entry of the value at `idx` under that key. -/
def lua_gettable (s : LuaState) (idx : Int) : Outcome Unit :=
  match index2value s idx, s.stack.getLast? with
  | some (.table a), some k =>
    match s.heap[a]? with
    | some (.table es mt) =>
      if rawget k es ≠ .nil ∨ mt = none then .ok () (push (pop s 1) (rawget k es))
      else .needsInterpreter
    | _ => .undefined
  | some t, some _ =>
    match getmetatable s t with
    | some none => .error ("attempt to index a " ++ lua_typename t.luaType ++ " value") s
    | some (some _) => .needsInterpreter
    | none => .undefined
  | _, _ => .undefined

/-- Effect of `lua_settable`: pops a value and a key and stores the value
under the key in the value at `idx`. -/
def lua_settable (s : LuaState) (idx : Int) : Outcome Unit :=
  match index2value s idx, (pop s 1).stack.getLast?, s.stack.getLast? with
  | some (.table a), some k, some v =>
    match s.heap[a]? with
    | some (.table es mt) =>
      if rawget k es ≠ .nil ∨ mt = none then
        if k = .nil then .error "table index is nil" s
        else .ok () (pop { s with heap := s.heap.set a (.table (rawset k v es) mt) } 2)
      else .needsInterpreter
    | _ => .undefined
  | some t, some _, some _ =>
    match getmetatable s t with
    | some none => .error ("attempt to index a " ++ lua_typename t.luaType ++ " value") s
    | some (some _) => .needsInterpreter
    | none => .undefined
  | _, _, _ => .undefined

/-! ## The bridge -/

/-- The `objTarget` of a call: the empty `rttr::instance` of a free function,
or the instance made from the variant in the userdatum block at `addr`. -/
inductive Instance where
  | empty
  | ref (addr : Nat)
  deriving DecidableEq, Repr

/-- Embedding of `PushToLuaStack` (lines 79-110): the result is the number of
values left on the stack. -/
def PushToLuaStack (s : LuaState) (result : Variant) : Outcome Nat :=
  if !result.is_valid then
    luaL_error s ("Unable send to Lua type: '" ++ result.get_type_name ++ "' \n")
  else if !result.is_type_void then
    match result with
    | .int n => .ok 1 (lua_pushnumber s (n : Rat))
    | .float x => .ok 1 (lua_pushnumber s x)
    | _ => luaL_error s ("Unhandled type '" ++ result.get_type_name ++ "' being sent to Lua.\n")
  else .ok 0 s

/-- Body of the marshalling loop of `InvokeMethod` (lines 150-177) for the
parameter at position `index`. -/
def marshalArg (s : LuaState) (index : Nat) (luaParamsStackOffset : Int)
    (nativeParamType : NativeType) : Outcome Argument :=
  let luaArgumentIndex : Int := (index : Int) + 1 + luaParamsStackOffset
  let luaType := lua_type s luaArgumentIndex
  match luaType with
  | .LUA_TNUMBER =>
    if nativeParamType = .int then
      match castToInt (lua_tonumber s luaArgumentIndex) with
      | some n => .ok (.int n) s
      | none => .undefined
    else .abort (.unrecognisedParam nativeParamType.get_name) s
  | _ =>
    luaL_error s ("Don't know this lua type '" ++ lua_typename luaType ++ "', parameter "
      ++ toString index ++ " when calling 's'")

/-- The marshalling loop of `InvokeMethod` (line 148): `remaining` iterations
from position `index`, the parameter iterator advancing in step. -/
def fillArgs (s : LuaState) (luaParamsStackOffset : Int) :
    (remaining : Nat) → (index : Nat) → List NativeType → Outcome (List Argument)
  | 0, _, _ => .ok [] s
  | _ + 1, _, [] => .undefined
  | n + 1, index, p :: ps =>
    (marshalArg s index luaParamsStackOffset p).bind fun a _ =>
      (fillArgs s luaParamsStackOffset n (index + 1) ps).bind fun rest _ =>
        .ok (a :: rest) s

/-- Effect of `method::invoke_variadic`: when the arguments match the declared
parameters and the instance fits the declaring class the thunk runs (the call
is recorded and the instance written back); otherwise the invalid variant is
returned and the thunk does not run. `none` when the instance block holds no variant. -/
def invoke_variadic (s : LuaState) (m : MethodDesc) (objTarget : Instance)
    (nativeArgs : List Argument) : Option (Variant × LuaState) :=
  if nativeArgs.map Argument.type = m.params.map some then
    match m.owner, objTarget with
    | none, _ =>
      let r := m.thunk .invalid nativeArgs
      some (r.1, { s with invoked := s.invoked ++ [⟨m.name, .invalid, nativeArgs⟩] })
    | some _, .empty => some (.invalid, s)
    | some t, .ref a =>
      match s.heap[a]? with
      | some (.udata (.variant (.object t' fs)) mt uv) =>
        if t' = t then
          let r := m.thunk (.object t' fs) nativeArgs
          some (r.1, { s with
            heap := s.heap.set a (.udata (.variant r.2) mt uv),
            invoked := s.invoked ++ [⟨m.name, .object t' fs, nativeArgs⟩] })
        else some (.invalid, s)
      | some (.udata (.variant _) _ _) => some (.invalid, s)
      | _ => none
  else some (.invalid, s)

/-- Embedding of `InvokeMethod` (lines 116-183). -/
def InvokeMethod (s : LuaState) (methodToInvoke : MethodDesc) (objTarget : Instance) :
    Outcome Nat :=
  let numLuaArgs0 := lua_gettop s
  let numNativeArgs := methodToInvoke.params.length
  let luaParamsStackOffset : Int :=
    if numLuaArgs0 > numNativeArgs then (numNativeArgs : Int) - (numNativeArgs : Int) else 0
  let numLuaArgs := if numLuaArgs0 > numNativeArgs then numNativeArgs else numLuaArgs0
  if numLuaArgs ≠ numNativeArgs then
    .abort (.wrongArgCount methodToInvoke.name numNativeArgs numLuaArgs) s
  else
    (fillArgs s luaParamsStackOffset numLuaArgs 0 methodToInvoke.params).bind fun filled s1 =>
      let nativeArgs := filled ++ List.replicate (numNativeArgs - numLuaArgs) Argument.empty
      match invoke_variadic s1 methodToInvoke objTarget nativeArgs with
      | some (result, s2) => PushToLuaStack s2 result
      | none => .undefined

/-- Embedding of `CallGlobalFromLua` (lines 185-192); the upvalue is the
registered free function. -/
def CallGlobalFromLua (methodToInvoke : MethodDesc) (s : LuaState) : Outcome Nat :=
  InvokeMethod s methodToInvoke .empty

/-- Embedding of `MetaTableName` (lines 195-200); the invalid type has an empty name. -/
def MetaTableName (t : Option TypeDesc) : String :=
  match t with
  | some d => d.name ++ "_MT_"
  | none => "" ++ "_MT_"

/-- Embedding of `CreateUserDatum` (lines 202-217); the upvalue is the type name. -/
def CreateUserDatum (env : Env) (typeName : String) (s : LuaState) : Outcome Nat :=
  let typeToCreate := env.get_by_name typeName
  let (ud, s1) := lua_newuserdata s
  match construct s1 ud (.variant (create typeToCreate)) with
  | none => .undefined
  | some s2 =>
    let s3 := luaL_getmetatable s2 (MetaTableName typeToCreate)
    match lua_setmetatable s3 1 with
    | none => .undefined
    | some s4 =>
      let s5 := lua_newtable s4
      match lua_setuservalue s5 1 with
      | none => .undefined
      | some s6 => .ok 1 s6

/-- The method a closure upvalue made by `IndexUserDatum` refers to. -/
def upvalueMethod (env : Env) (s : LuaState) (up : Nat) : Option MethodDesc :=
  match s.heap[up]? with
  | some (.udata (.method owner name) _ _) => get_method (env.get_by_name owner) name
  | _ => none

/-- The variant in the userdatum block at `addr`, if the block holds one. -/
def blockVariant (s : LuaState) (addr : Nat) : Option Variant :=
  match s.heap[addr]? with
  | some (.udata (.variant v) _ _) => some v
  | _ => none

/-- Embedding of `InvokeFuncOnUserDatum` (lines 230-247); `up` is the address
of the upvalue userdatum holding the method. -/
def InvokeFuncOnUserDatum (env : Env) (up : Nat) (s : LuaState) : Outcome Nat :=
  match upvalueMethod env s up with
  | none => .undefined
  | some m =>
    if !lua_isuserdata s 1 then
      luaL_error s ("Expected a userdatum on the lua stack when invoking native method: '"
        ++ m.name ++ "'")
    else
      match lua_touserdata s 1 with
      | none => .undefined
      | some a =>
        match blockVariant s a with
        | none => .undefined
        | some _ => InvokeMethod s m (.ref a)

/-- The fall-through of `IndexUserDatum` (lines 289-293): the read of the
user value of slot 1 under the key in slot 2; one value is returned. -/
def indexUserValue (s : LuaState) : Outcome Nat :=
  match lua_getuservalue s 1 with
  | none => .undefined
  | some s1 =>
    match lua_pushvalue s1 2 with
    | none => .undefined
    | some s2 => (lua_gettable s2 (-2)).bind fun _ s3 => .ok 1 s3

/-- Embedding of `IndexUserDatum` (lines 249-294); the upvalue is the type name. -/
def IndexUserDatum (env : Env) (typeName : String) (s : LuaState) : Outcome Nat :=
  let typeInfo := env.get_by_name typeName
  if !lua_isuserdata s 1 then
    luaL_error s ("Expected a userdatum on the lua stack when indexing type: '" ++ typeName ++ "'")
  else if !lua_isstring s 2 then
    luaL_error s ("Expected a name of a native property or method when indexing native type: '"
      ++ typeName ++ "'")
  else
    match lua_tostring env.fmtNumber s 2 with
    | none => .undefined
    | some (fieldName, s1) =>
      match get_method typeInfo fieldName with
      | some m =>
        let (methodUD, s2) := lua_newuserdata s1
        match construct s2 methodUD (.method typeName m.name) with
        | none => .undefined
        | some s3 => .ok 1 (push (pop s3 1) (.cclosure .InvokeFuncOnUserDatum (.udata methodUD)))
      | none =>
        match get_property typeInfo fieldName with
        | some p =>
          match (lua_touserdata s1 1).bind (blockVariant s1) with
          | none => .undefined
          | some ud =>
            let result := p.get_value typeName ud
            if result.is_valid then PushToLuaStack s1 result
            else indexUserValue s1
        | none => indexUserValue s1

/-- The tail of `NewIndexUserDatum` (lines 346-351): the write of the value in
slot 3 into the user value of slot 1 under the key in slot 2; nothing is returned. -/
def newIndexUserValue (s : LuaState) : Outcome Nat :=
  match lua_getuservalue s 1 with
  | none => .undefined
  | some s1 =>
    match lua_pushvalue s1 2 with
    | none => .undefined
    | some s2 =>
      match lua_pushvalue s2 3 with
      | none => .undefined
      | some s3 => (lua_settable s3 (-3)).bind fun _ s4 => .ok 0 s4

/-- The statement `assert(p.set_value(ud, val))` of `NewIndexUserDatum` on the
variant in the block of slot 1. -/
def assertSetValue (s : LuaState) (p : PropertyDesc) (owner : String) (val : Argument) :
    Outcome Unit :=
  match lua_touserdata s 1 with
  | none => .undefined
  | some a =>
    match s.heap[a]? with
    | some (.udata (.variant ud) mt uv) =>
      match p.set_value owner ud val with
      | some ud' => .ok () { s with heap := s.heap.set a (.udata (.variant ud') mt uv) }
      | none => .abort (.setValueFailed p.name) s
    | _ => .undefined

/-- Embedding of `NewIndexUserDatum` (lines 296-352); the upvalue is the type name. -/
def NewIndexUserDatum (env : Env) (typeName : String) (s : LuaState) : Outcome Nat :=
  let typeInfo := env.get_by_name typeName
  if !lua_isuserdata s 1 then
    luaL_error s ("Expected a userdatum on the lua stack when indexing type: '" ++ typeName ++ "'")
  else if !lua_isstring s 2 then
    luaL_error s ("Expected a name of a native property or method when indexing native type: '"
      ++ typeName ++ "'")
  else
    match lua_tostring env.fmtNumber s 2 with
    | none => .undefined
    | some (fieldName, s1) =>
      match get_property typeInfo fieldName with
      | some p =>
        let luaType := lua_type s1 3
        match luaType with
        | .LUA_TNUMBER =>
          if p.type = .int then
            match castToInt (lua_tonumber s1 3) with
            | none => .undefined
            | some val =>
              (assertSetValue s1 p typeName (.int val)).bind fun _ s2 => newIndexUserValue s2
          else if p.type = .float then
            let val := env.toFloat (lua_tonumber s1 3)
            (assertSetValue s1 p typeName (.float val)).bind fun _ s2 => newIndexUserValue s2
          else newIndexUserValue s1
        | _ =>
          luaL_error s1 ("TODO: need to write to native property, type '" ++ typeName ++ "'")
      | none => newIndexUserValue s1

/-- The call protocol of the interpreter for a C function: the function runs
on a frame holding the arguments, its results are the top `n` values of the
frame, `n` being what it returns, and the frame is dropped afterwards. -/
def callC (f : LuaState → Outcome Nat) (s : LuaState) (args : List LuaValue) :
    Outcome (List LuaValue) :=
  (f { s with stack := args }).bind fun n s1 =>
    .ok (s1.stack.drop (s1.stack.length - n)) { s1 with stack := s.stack }

/-! ## Registrations: those of the source, and test registrations -/

/-- Reduction of an integer to the 32-bit two's complement range. -/
def wrapInt (n : Int) : Int :=
  (n - INT_MIN) % 4294967296 + INT_MIN

/-- The free function `f` of the source (line 35): prints and returns nothing. -/
def f : MethodDesc :=
  { name := "f", owner := none, params := [],
    thunk := fun inst _ => (.void, inst) }

/-- The free function `Move` of the source (lines 37-40): prints and returns nothing. -/
def Move : MethodDesc :=
  { name := "Move", owner := none, params := [.int, .int],
    thunk := fun inst _ => (.void, inst) }

/-- The free function `Add` of the source (lines 42-45). -/
def Add : MethodDesc :=
  { name := "Add", owner := none, params := [.int, .int],
    thunk := fun inst args =>
      match args with
      | [.int x, .int y] => (.int (wrapInt (x + y)), inst)
      | _ => (.invalid, inst) }

/-- A test registration: the identity function `int id_int(int)`. -/
def id_int : MethodDesc :=
  { name := "id_int", owner := none, params := [.int],
    thunk := fun inst args =>
      match args with
      | [.int n] => (.int n, inst)
      | _ => (.invalid, inst) }

/-- A test registration: `float half(float)`. -/
def half : MethodDesc :=
  { name := "half", owner := none, params := [.float],
    thunk := fun inst args =>
      match args with
      | [.float x] => (.float (x / 2), inst)
      | _ => (.invalid, inst) }

/-- The class `vec3` of the source (lines 54-58): a nullary constructor and
three `float` properties; the components of a new object are taken as 0. -/
def vec3 : TypeDesc :=
  { name := "vec3", isClass := true,
    ctor := some [("x", .float 0), ("y", .float 0), ("z", .float 0)],
    properties := [⟨"x", .float⟩, ⟨"y", .float⟩, ⟨"z", .float⟩],
    methods := [] }

/-- A test registration: the method `void Counter::add(int)`, which adds to
the data member `n`. -/
def Counter_add : MethodDesc :=
  { name := "add", owner := some "Counter", params := [.int],
    thunk := fun inst args =>
      match inst, args with
      | .object t fs, [.int k] =>
        match getField "n" fs with
        | some (.int n) => (.void, .object t (setField "n" (.int (wrapInt (n + k))) fs))
        | _ => (.void, inst)
      | _, _ => (.invalid, inst) }

/-- A test registration: a class with a nullary constructor, an `int` property
`n`, a `std::string` property `label` and the method `add`. -/
def Counter : TypeDesc :=
  { name := "Counter", isClass := true,
    ctor := some [("n", .int 0), ("label", .blob "std::string" "")],
    properties := [⟨"n", .int⟩, ⟨"label", .other "std::string"⟩],
    methods := [Counter_add] }

/-- Rounding of a quotient of naturals to the nearest integer, ties to even. -/
def roundHalfEven (a b : Nat) : Nat :=
  let q := a / b
  let r := a % b
  if 2 * r < b then q else if b < 2 * r then q + 1 else if q % 2 = 0 then q else q + 1

/-- Conversion of a double to IEEE binary32, round to nearest even, on exact
values; a result beyond the largest float is replaced by the largest float. -/
def roundToSingle (d : Rat) : Rat :=
  let n := d.num.natAbs
  if n = 0 then 0
  else
    let e0 : Int := (Nat.log2 n : Int) - (Nat.log2 d.den : Int)
    let below : Bool := if 0 ≤ e0 then n < 2 ^ e0.toNat * d.den else n * 2 ^ (-e0).toNat < d.den
    let e : Int := max (if below then e0 - 1 else e0) (-126)
    let k : Int := e - 23
    let mag : Rat :=
      if 0 ≤ k then ((roundHalfEven n (d.den * 2 ^ k.toNat) * 2 ^ k.toNat : Nat) : Rat)
      else mkRat (roundHalfEven (n * 2 ^ (-k).toNat) d.den) (2 ^ (-k).toNat)
    let fltMax : Rat := ((2 ^ 128 - 2 ^ 104 : Nat) : Rat)
    let m := if fltMax < mag then fltMax else mag
    if d.num < 0 then -m else m

/-- A test environment: the registrations above, binary32 rounding, and a
number format that prints the truncated value. -/
def demoEnv : Env :=
  { globals := [f, Move, Add, id_int, half],
    types := [vec3, Counter],
    toFloat := roundToSingle,
    fmtNumber := fun x => toString (Int.tdiv x.num x.den) }

/-- A state with an empty frame, an empty heap and no registered metatable. -/
def emptyState : LuaState :=
  { stack := [], heap := [], registry := [], typeMT := [], invoked := [] }

/-- A state in which heap cell 0 is the metatable registered as `vec3_MT_`
and cell 1 the one registered as `Counter_MT_`. -/
def installedState : LuaState :=
  { stack := [], heap := [.table [] none, .table [] none],
    registry := [("vec3_MT_", 0), ("Counter_MT_", 1)],
    typeMT := [], invoked := [] }

/-- The installed state after `Counter.new()`: the instance is cell 2, its side table cell 3. -/
def counterState : LuaState :=
  { installedState with
    heap := [.table [] none, .table [] none,
      .udata (.variant (.object "Counter" [("n", .int 0), ("label", .blob "std::string" "")]))
        (some 1) (.table 3),
      .table [] none] }

/-- The installed state after `vec3.new()`: the instance is cell 2, its side table cell 3. -/
def vec3State : LuaState :=
  { installedState with
    heap := [.table [] none, .table [] none,
      .udata (.variant (.object "vec3" [("x", .float 0), ("y", .float 0), ("z", .float 0)]))
        (some 0) (.table 3),
      .table [] none] }

/-- The state `counterState` after the assignment `inst.n = 1.5`. -/
def counterWritten : LuaState :=
  { installedState with
    heap := [.table [] none, .table [] none,
      .udata (.variant (.object "Counter" [("n", .int 1), ("label", .blob "std::string" "")]))
        (some 1) (.table 3),
      .table [(.string "n", .number (mkRat 3 2))] none] }

/-- The state `counterState` after the assignment `inst.label = 5`. -/
def counterLabelled : LuaState :=
  { installedState with
    heap := [.table [] none, .table [] none,
      .udata (.variant (.object "Counter" [("n", .int 0), ("label", .blob "std::string" "")]))
        (some 1) (.table 3),
      .table [(.string "label", .number 5)] none] }

/-- The state `counterState` after the read of `inst.add`: cell 4 holds the
method copy the returned closure refers to. -/
def methodState : LuaState :=
  { counterState with
    heap := counterState.heap ++ [.udata (.method "Counter" "add") none .nil] }

/-- What the native getter of property `p` of class `owner` returns on the
object in the userdatum block at `addr`. -/
def nativeGetter (s : LuaState) (addr : Nat) (p : PropertyDesc) (owner : String) :
    Option Variant :=
  (blockVariant s addr).map (p.get_value owner)

/-- Raw read of the side table of the userdatum at `addr` under `key`. -/
def sideTableRawGet (s : LuaState) (addr : Nat) (key : LuaValue) : Option LuaValue :=
  match s.heap[addr]? with
  | some (.udata _ _ (.table t)) =>
    match s.heap[t]? with
    | some (.table es _) => some (rawget key es)
    | _ => none
  | _ => none

/-! ## Lemmas on the primitives -/

theorem castToInt_intCast (n : Int) (hmin : INT_MIN ≤ n) (hmax : n ≤ INT_MAX) :
    castToInt (n : Rat) = some n := by
  simp [castToInt, hmin, hmax]

/-- The marshalling loop never fails the argument-count assertion. -/
theorem fillArgs_not_wrongArgCount (s : LuaState) (off : Int) (n index : Nat)
    (ps : List NativeType) (name : String) (e g : Nat) (s' : LuaState) :
    fillArgs s off n index ps ≠ .abort (.wrongArgCount name e g) s' := by
  induction n generalizing index ps with
  | zero => simp [fillArgs]
  | succ n ih =>
    cases ps with
    | nil => simp [fillArgs]
    | cons p ps =>
      have h := ih (index + 1) ps
      simp only [fillArgs, marshalArg]
      split
      · split
        · split
          · cases hr : fillArgs s off n (index + 1) ps <;> simp_all [Outcome.bind]
          · simp [Outcome.bind]
        · simp [Outcome.bind]
      · simp [Outcome.bind, luaL_error]

theorem index2value_succ (s : LuaState) (i : Nat) :
    index2value s ((i : Int) + 1) = s.stack[i]? := by
  have h : (0 : Int) < (i : Int) + 1 := by omega
  have h2 : ((i : Int) + 1).toNat - 1 = i := by omega
  simp only [index2value, h, if_true, h2]

/-- On a stack of numbers representable as `int`, the marshalling loop fills
in an `int` argument for every declared `int` parameter. -/
theorem fillArgs_ints (s : LuaState) (ps : List NativeType) (index : Nat)
    (hps : ∀ p ∈ ps, p = NativeType.int)
    (hlen : index + ps.length ≤ s.stack.length)
    (hnum : ∀ v ∈ s.stack, ∃ x k, v = LuaValue.number x ∧ castToInt x = some k) :
    ∃ args, fillArgs s 0 ps.length index ps = .ok args s ∧
      args.map Argument.type = ps.map some := by
  induction ps generalizing index with
  | nil => exact ⟨[], rfl, rfl⟩
  | cons p ps ih =>
    have hp : p = .int := hps p (List.mem_cons_self _ _)
    subst hp
    have hlt : index < s.stack.length := by simp at hlen; omega
    obtain ⟨x, k, hv, hk⟩ := hnum _ (List.getElem_mem hlt)
    have hslot : index2value s ((index : Int) + 1) = some (.number x) := by
      rw [index2value_succ, List.getElem?_eq_getElem hlt, hv]
    obtain ⟨rest, hrest, htypes⟩ := ih (index + 1)
      (fun q hq => hps q (List.mem_cons_of_mem _ hq)) (by simp at hlen; omega)
    refine ⟨.int k :: rest, ?_, ?_⟩
    · simp [fillArgs, marshalArg, lua_type, lua_tonumber, hslot, LuaValue.luaType, hk,
        Outcome.bind, hrest]
    · simp [Argument.type, htypes]

/-- Pushing a result ends in a state and records no thunk call. -/
theorem PushToLuaStack_invoked (s : LuaState) (v : Variant) :
    ∃ s', (PushToLuaStack s v).finalState = some s' ∧ s'.invoked = s.invoked := by
  cases v <;>
    simp [PushToLuaStack, Variant.is_valid, Variant.is_type_void, luaL_error,
      Outcome.finalState, lua_pushnumber, push]

/-- Pushing a result never fails an assertion. -/
theorem PushToLuaStack_not_abort (s : LuaState) (v : Variant) (why : Failure) (s' : LuaState) :
    PushToLuaStack s v ≠ .abort why s' := by
  cases v <;> simp [PushToLuaStack, Variant.is_valid, Variant.is_type_void, luaL_error]

/-! ## Pushing results (`PushToLuaStack`) -/

/-- C4, as stated, fails: for the empty value box (the invalid variant, which
holds no payload) `PushToLuaStack` does not return 0; it raises a script error. -/
theorem PushToLuaStack_empty_box_raises :
    Variant.invalid.is_valid = false ∧
    PushToLuaStack emptyState .invalid
      = .error "Unable send to Lua type: '' \n" emptyState ∧
    PushToLuaStack emptyState .invalid ≠ .ok 0 emptyState := by
  decide

/-- C4, amended: for every value box, `PushToLuaStack` raises a script error
and pushes nothing when the box is invalid (no payload); pushes nothing and
returns 0 when the box holds `void`; pushes exactly one number equal to the
payload and returns 1 when it holds an `int` or a `float`; and raises a script
error and pushes nothing for every other payload type. -/
theorem PushToLuaStack_cases (s : LuaState) (V : Variant) :
    PushToLuaStack s V =
      match V with
      | .invalid => .error "Unable send to Lua type: '' \n" s
      | .void => .ok 0 s
      | .int n => .ok 1 { s with stack := s.stack ++ [.number (n : Rat)] }
      | .float x => .ok 1 { s with stack := s.stack ++ [.number x] }
      | .object t _ => .error ("Unhandled type '" ++ t ++ "' being sent to Lua.\n") s
      | .other t _ => .error ("Unhandled type '" ++ t ++ "' being sent to Lua.\n") s := by
  cases V <;> rfl

/-! ## Argument count and marshalling (`InvokeMethod`) -/

/-- Scenario 1 of the specification: `Game.Add(3, 4)` returns 7. -/
theorem scenario_Add :
    callC (CallGlobalFromLua Add) emptyState [.number 3, .number 4]
      = .ok [.number 7] { emptyState with invoked := [⟨"Add", .invalid, [.int 3, .int 4]⟩] } := by
  decide

/-- C1, as stated, fails: `Add` has two parameters, and called with three
arguments (K > N) it raises no error, runs the thunk on the first two and
returns their sum; called with one argument (K < N) it raises no script error
but fails the assertion. -/
theorem InvokeMethod_excess_args_invokes :
    callC (CallGlobalFromLua Add) emptyState [.number 1, .number 2, .number 3]
      = .ok [.number 3]
          { emptyState with invoked := [⟨"Add", .invalid, [.int 1, .int 2]⟩] } ∧
    callC (CallGlobalFromLua Add) emptyState [.number 1]
      = .abort (.wrongArgCount "Add" 2 1) { emptyState with stack := [.number 1] } := by
  decide

/-- C1, amended: with K values on the stack and N declared parameters, for
K < N `InvokeMethod` prints the method name and both counts and fails its
assertion, in the state it was called in (the thunk has not run); for K > N
the call does not fail the argument-count assertion, and for a free function
whose parameters are all `int`, called on a stack of numbers representable as
`int`, the thunk runs once, on N arguments. -/
theorem InvokeMethod_arity (s : LuaState) (m : MethodDesc) (objTarget : Instance) :
    (lua_gettop s < m.params.length →
      InvokeMethod s m objTarget
        = .abort (.wrongArgCount m.name m.params.length (lua_gettop s)) s) ∧
    (m.params.length < lua_gettop s →
      ∀ (name : String) (e g : Nat) (s' : LuaState),
        InvokeMethod s m objTarget ≠ .abort (.wrongArgCount name e g) s') ∧
    (m.params.length < lua_gettop s → m.owner = none →
      (∀ p ∈ m.params, p = NativeType.int) →
      (∀ v ∈ s.stack, ∃ x k, v = LuaValue.number x ∧ castToInt x = some k) →
      ∃ args s', (InvokeMethod s m objTarget).finalState = some s' ∧
        args.length = m.params.length ∧
        s'.invoked = s.invoked ++ [⟨m.name, .invalid, args⟩]) := by
  refine ⟨?_, ?_, ?_⟩
  · intro h
    have h1 : ¬ (lua_gettop s > m.params.length) := by omega
    have h2 : lua_gettop s ≠ m.params.length := by omega
    simp [InvokeMethod, h1, h2]
  · intro h name e g s'
    have h1 : lua_gettop s > m.params.length := h
    simp only [InvokeMethod, h1, if_true, ne_eq, not_true_eq_false, if_false]
    have hf := fillArgs_not_wrongArgCount s ((m.params.length : Int) - m.params.length)
      m.params.length 0 m.params name e g s'
    cases hr : fillArgs s ((m.params.length : Int) - m.params.length) m.params.length 0 m.params with
    | ok filled s1 =>
      simp only [Outcome.bind]
      split
      · exact PushToLuaStack_not_abort _ _ _ _
      · simp
    | error msg s1 => simp [Outcome.bind]
    | abort why s1 =>
      rw [hr] at hf
      simpa [Outcome.bind] using hf
    | undefined => simp [Outcome.bind]
    | needsInterpreter => simp [Outcome.bind]
  · intro h hfree hps hnum
    have h1 : lua_gettop s > m.params.length := h
    obtain ⟨args, hfill, htypes⟩ := fillArgs_ints s m.params 0 hps
      (by simp [lua_gettop] at h; omega) hnum
    have hlen : args.length = m.params.length := by
      have := congrArg List.length htypes
      simpa using this
    refine ⟨args, ?_⟩
    simp only [InvokeMethod, h1, if_true, ne_eq, not_true_eq_false, if_false, sub_self, hfill,
      Outcome.bind, Nat.sub_self, List.replicate_zero, List.append_nil, invoke_variadic, htypes,
      hfree]
    obtain ⟨s', hs', hinv⟩ := PushToLuaStack_invoked
      { s with invoked := s.invoked ++ [⟨m.name, .invalid, args⟩] } (m.thunk .invalid args).1
    exact ⟨s', hs', hlen, hinv⟩

/-- Witness of `InvokeMethod_arity`: `Add` called with one and with three arguments. -/
theorem InvokeMethod_arity_witness :
    InvokeMethod { emptyState with stack := [.number 1] } Add .empty
        = .abort (.wrongArgCount "Add" 2 1) { emptyState with stack := [.number 1] } ∧
    InvokeMethod { emptyState with stack := [.number 1, .number 2, .number 3] } Add .empty
        ≠ .abort (.wrongArgCount "Add" 2 3)
            { emptyState with stack := [.number 1, .number 2, .number 3] } ∧
    ∃ args s',
      (InvokeMethod { emptyState with stack := [.number 1, .number 2, .number 3] } Add
        .empty).finalState = some s' ∧
      args.length = 2 ∧ s'.invoked = [⟨"Add", .invalid, args⟩] :=
  ⟨(InvokeMethod_arity { emptyState with stack := [.number 1] } Add .empty).1 (by decide),
   (InvokeMethod_arity { emptyState with stack := [.number 1, .number 2, .number 3] } Add
      .empty).2.1 (by decide) _ _ _ _,
   (InvokeMethod_arity { emptyState with stack := [.number 1, .number 2, .number 3] } Add
      .empty).2.2 (by decide) rfl (by decide)
      (by
        intro v hv
        simp only [List.mem_cons, List.mem_singleton, List.not_mem_nil, or_false] at hv
        rcases hv with rfl | rfl | rfl
        · exact ⟨1, 1, rfl, by decide⟩
        · exact ⟨2, 2, rfl, by decide⟩
        · exact ⟨3, 3, rfl, by decide⟩)⟩

/-- C5, as stated, fails for a `float` parameter: marshalling the number 1.5
against a declared `float` yields no argument; the run fails `assert(false)`
after printing the type name, and so does the call `half(1.5)` of a registered
`float half(float)`. -/
theorem marshalArg_float_aborts :
    marshalArg { emptyState with stack := [.number (mkRat 3 2)] } 0 0 .float
      = .abort (.unrecognisedParam "float") { emptyState with stack := [.number (mkRat 3 2)] } ∧
    callC (CallGlobalFromLua half) emptyState [.number (mkRat 3 2)]
      = .abort (.unrecognisedParam "float") { emptyState with stack := [.number (mkRat 3 2)] } := by
  decide

/-- C5, amended: for a slot holding the number `x`, marshalling against a
declared `int` succeeds with an `int` argument holding `x` truncated toward
zero whenever that is representable as `int`, leaving the state unchanged;
against a declared `float`, and against every declared type other than `int`,
it yields no argument and fails `assert(false)`. -/
theorem marshalArg_number (s : LuaState) (index : Nat) (off : Int) (x : Rat) (t : NativeType)
    (hslot : index2value s ((index : Int) + 1 + off) = some (.number x)) :
    (t = .int → ∀ n, castToInt x = some n →
      n = Int.tdiv x.num x.den ∧ marshalArg s index off t = .ok (.int n) s) ∧
    (t ≠ .int → marshalArg s index off t = .abort (.unrecognisedParam t.get_name) s) := by
  constructor
  · intro ht n hn
    subst ht
    refine ⟨?_, ?_⟩
    · unfold castToInt at hn
      simp only [] at hn
      split at hn
      · exact (Option.some.inj hn).symm
      · exact absurd hn (by simp)
    · simp [marshalArg, lua_type, lua_tonumber, hslot, LuaValue.luaType, hn]
  · intro ht
    simp [marshalArg, lua_type, hslot, LuaValue.luaType, ht]

/-- Witness of `marshalArg_number`: the number 3.5 in slot 1 against `int` and against `float`. -/
theorem marshalArg_number_witness :
    marshalArg { emptyState with stack := [.number (mkRat 7 2)] } 0 0 .int
        = .ok (.int 3) { emptyState with stack := [.number (mkRat 7 2)] } ∧
    marshalArg { emptyState with stack := [.number (mkRat 7 2)] } 0 0 .float
        = .abort (.unrecognisedParam "float")
            { emptyState with stack := [.number (mkRat 7 2)] } :=
  ⟨((marshalArg_number { emptyState with stack := [.number (mkRat 7 2)] } 0 0 (mkRat 7 2) .int
      (by decide)).1 rfl 3 (by decide)).2,
   (marshalArg_number { emptyState with stack := [.number (mkRat 7 2)] } 0 0 (mkRat 7 2) .float
      (by decide)).2 (by decide)⟩

/-! ## Round trip of an `int` through a free function -/

/-- C3: for every `int` n, a registered free function of signature
`int -> int` that returns its argument, called from script with the number n
as its single argument, returns exactly one value, the number n; the thunk
ran once, on the argument n. -/
theorem id_int_roundtrip (m : MethodDesc) (s : LuaState) (n : Int)
    (hfree : m.owner = none) (hparams : m.params = [.int])
    (hid : ∀ inst k, (m.thunk inst [.int k]).1 = .int k)
    (hmin : INT_MIN ≤ n) (hmax : n ≤ INT_MAX) :
    callC (CallGlobalFromLua m) s [.number (n : Rat)]
      = .ok [.number (n : Rat)]
          { s with invoked := s.invoked ++ [⟨m.name, .invalid, [.int n]⟩] } := by
  have hc := castToInt_intCast n hmin hmax
  simp [callC, CallGlobalFromLua, InvokeMethod, lua_gettop, hparams, fillArgs, marshalArg,
    lua_type, lua_tonumber, index2value, LuaValue.luaType, hc, Outcome.bind, invoke_variadic,
    Argument.type, hfree, hid, PushToLuaStack, Variant.is_valid, Variant.is_type_void,
    lua_pushnumber, push]

/-- Witness of `id_int_roundtrip`: `id_int(-7)` returns -7. -/
theorem id_int_roundtrip_witness :
    callC (CallGlobalFromLua id_int) emptyState [.number ((-7 : Int) : Rat)]
      = .ok [.number ((-7 : Int) : Rat)]
          { emptyState with
            invoked := emptyState.invoked ++ [⟨id_int.name, .invalid, [.int (-7)]⟩] } :=
  id_int_roundtrip id_int emptyState (-7) rfl rfl (fun _ _ => rfl) (by decide) (by decide)

/-! ## Heap lemmas -/

theorem getElem?_append_cons {α : Type} (l : List α) (x : α) (r : List α) :
    (l ++ x :: r)[l.length]? = some x := by
  induction l with
  | nil => simp
  | cons a l ih => simpa using ih

theorem getElem?_append_cons_succ {α : Type} (l : List α) (x y : α) (r : List α) :
    (l ++ x :: y :: r)[l.length + 1]? = some y := by
  induction l with
  | nil => simp
  | cons a l ih => simpa using ih

theorem set_append_cons {α : Type} (l : List α) (x y : α) (r : List α) :
    (l ++ x :: r).set l.length y = l ++ y :: r := by
  induction l with
  | nil => simp
  | cons a l ih => simp [ih]

theorem set_append_cons_succ {α : Type} (l : List α) (x y z : α) (r : List α) :
    (l ++ x :: y :: r).set (l.length + 1) z = l ++ x :: z :: r := by
  induction l with
  | nil => simp
  | cons a l ih => simp [ih]

theorem length_of_getElem?_some {α : Type} (l : List α) (i : Nat) (x : α)
    (h : l[i]? = some x) : i < l.length := by
  by_contra hc
  have : l[i]? = none := List.getElem?_eq_none (by omega)
  rw [this] at h
  exact Option.noConfusion h

theorem getElem_append_cons {α : Type} (l : List α) (x : α) (r : List α)
    (h : l.length < (l ++ x :: r).length) : (l ++ x :: r)[l.length] = x := by
  have h2 := getElem?_append_cons l x r
  rw [List.getElem?_eq_getElem h] at h2
  exact Option.some.inj h2

theorem getLast?_cons_append_two {α : Type} (x : α) (l : List α) (y z : α) :
    (x :: (l ++ [y, z])).getLast? = some z := by
  have : x :: (l ++ [y, z]) = (x :: (l ++ [y])) ++ [z] := by simp
  rw [this, List.getLast?_concat]

theorem take_length_succ_append_two {α : Type} (l : List α) (y z : α) :
    List.take (l.length + 1) (l ++ [y, z]) = l ++ [y] := by
  induction l with
  | nil => simp
  | cons a l ih => simpa using ih

theorem getElem?_set_append {α : Type} (l r : List α) (i : Nat) (y : α) (h : i < l.length) :
    (l.set i y ++ r)[i]? = some y := by
  rw [List.getElem?_append_left (by simpa using h)]
  simp [h]

theorem getElem?_set_set_left {α : Type} (l : List α) (a t : Nat) (x y : α) (hne : a ≠ t)
    (hlt : a < l.length) : ((l.set a x).set t y)[a]? = some x := by
  rw [List.getElem?_set_ne (Ne.symm hne), List.getElem?_set_self hlt]

theorem getElem?_set_set_right {α : Type} (l : List α) (a t : Nat) (x y : α)
    (hlt : t < l.length) : ((l.set a x).set t y)[t]? = some y := by
  rw [List.getElem?_set_self (by simpa using hlt)]

/-- Two heap cells of different kinds have different addresses. -/
theorem addr_ne_of_udata_table (heap : List HeapObj) (a t : Nat) (pl : Payload)
    (mt : Option Nat) (uv : LuaValue) (es : List (LuaValue × LuaValue)) (tm : Option Nat)
    (hud : heap[a]? = some (.udata pl mt uv)) (hside : heap[t]? = some (.table es tm)) :
    a ≠ t := by
  intro h
  subst h
  rw [hud] at hside
  exact HeapObj.noConfusion (Option.some.inj hside)

theorem rawget_rawErase (k : LuaValue) (es : List (LuaValue × LuaValue)) :
    rawget k (rawErase k es) = .nil := by
  induction es with
  | nil => rfl
  | cons e es ih =>
    obtain ⟨k', v⟩ := e
    by_cases h : k' = k
    · simp [rawErase, h, ih]
    · simp [rawErase, h, rawget, ih]

/-- A raw read after a raw write of the same key gives the written value. -/
theorem rawget_rawset (k v : LuaValue) (es : List (LuaValue × LuaValue)) :
    rawget k (rawset k v es) = v := by
  unfold rawset
  by_cases h : v = .nil
  · simp [h, rawget_rawErase]
  · simp [h, rawget]

theorem getField_setField (name : String) (v : Scalar) (fs : List (String × Scalar)) :
    getField name (setField name v fs) = some v := by
  induction fs with
  | nil => simp [setField, getField]
  | cons e fs ih =>
    obtain ⟨k, w⟩ := e
    by_cases h : k = name
    · simp [setField, getField, h]
    · simp [setField, getField, h, ih]

/-! ## The constructor closure (`CreateUserDatum`) -/

/-- The closure `T.new` called with an empty argument stack, for any type name. -/
theorem CreateUserDatum_empty_stack (env : Env) (s0 : LuaState) (typeName : String) :
    callC (CreateUserDatum env typeName) s0 []
      = .ok [.userdata s0.heap.length]
          { s0 with heap := s0.heap ++
              [.udata (.variant (create (env.get_by_name typeName)))
                  (lookupName (MetaTableName (env.get_by_name typeName)) s0.registry)
                  (.table (s0.heap.length + 1)),
               .table [] none] } := by
  cases hmt : lookupName (MetaTableName (env.get_by_name typeName)) s0.registry <;>
  simp [callC, CreateUserDatum, lua_newuserdata, construct,
    luaL_getmetatable, hmt, push, lua_setmetatable, index2value, pop,
    lua_newtable, lua_setuservalue, Outcome.bind, getElem?_append_cons, set_append_cons,
    getElem_append_cons]


/-- C9: for every registered type T with a nullary constructor whose metatable
is registered under `T.name ++ "_MT_"`, the closure `T.new` called with an
empty argument stack returns exactly one value, a new userdatum (a fresh heap
address) whose block holds a newly constructed T, whose metatable is that
registered metatable and whose side table is a fresh empty table; nothing else
in the state changes. -/
theorem CreateUserDatum_nullary (env : Env) (s0 : LuaState) (T : TypeDesc)
    (fs : List (String × Scalar)) (mt : Nat)
    (hreg : env.get_by_name T.name = some T) (hctor : T.ctor = some fs)
    (hmt : lookupName (T.name ++ "_MT_") s0.registry = some mt) :
    callC (CreateUserDatum env T.name) s0 []
      = .ok [.userdata s0.heap.length]
          { s0 with heap := s0.heap ++
              [.udata (.variant (.object T.name fs)) (some mt) (.table (s0.heap.length + 1)),
               .table [] none] } := by
  have hname : MetaTableName (env.get_by_name T.name) = T.name ++ "_MT_" := by
    simp [MetaTableName, hreg]
  rw [CreateUserDatum_empty_stack, hname, hmt]
  simp [create, hreg, hctor]

/-- Witness of `CreateUserDatum_nullary`: `vec3.new()` in the installed state. -/
theorem CreateUserDatum_nullary_witness :
    callC (CreateUserDatum demoEnv vec3.name) installedState []
      = .ok [.userdata installedState.heap.length]
          { installedState with heap := installedState.heap ++
              [.udata (.variant (.object vec3.name
                  [("x", .float 0), ("y", .float 0), ("z", .float 0)]))
                (some 0) (.table (installedState.heap.length + 1)),
               .table [] none] } :=
  CreateUserDatum_nullary demoEnv installedState vec3
    [("x", .float 0), ("y", .float 0), ("z", .float 0)] 0 rfl rfl (by decide)

/-- C10, as stated, fails when the first argument is no full userdatum: in
`vec3.new(1)` slot 1 holds a number, so `lua_setmetatable(L, 1)` makes the
metatable of `vec3` the metatable shared by all numbers, and
`lua_setuservalue(L, 1)` addresses a value that has no user value; the Lua
API leaves that call undefined, and no side table is attached to the argument. -/
theorem CreateUserDatum_number_arg_undefined :
    lua_setmetatable
        { stack := [.number 1, .userdata 2, .table 0],
          heap := [.table [] none, .table [] none,
            .udata (.variant (.object "vec3" [("x", .float 0), ("y", .float 0), ("z", .float 0)]))
              none .nil],
          registry := [("vec3_MT_", 0), ("Counter_MT_", 1)], typeMT := [], invoked := [] } 1
      = some
        { stack := [.number 1, .userdata 2],
          heap := [.table [] none, .table [] none,
            .udata (.variant (.object "vec3" [("x", .float 0), ("y", .float 0), ("z", .float 0)]))
              none .nil],
          registry := [("vec3_MT_", 0), ("Counter_MT_", 1)],
          typeMT := [(.LUA_TNUMBER, 0)], invoked := [] } ∧
    lua_setuservalue
        { stack := [.number 1, .userdata 2, .table 3],
          heap := [.table [] none, .table [] none,
            .udata (.variant (.object "vec3" [("x", .float 0), ("y", .float 0), ("z", .float 0)]))
              none .nil,
            .table [] none],
          registry := [("vec3_MT_", 0), ("Counter_MT_", 1)],
          typeMT := [(.LUA_TNUMBER, 0)], invoked := [] } 1
      = none ∧
    callC (CreateUserDatum demoEnv "vec3") installedState [.number 1] = .undefined := by
  decide

/-- C10, amended: for every call of `T.new` whose first argument is a full
userdatum, the metatable registered as `T.name ++ "_MT_"` and the fresh side
table are attached to that argument (replacing its own), not to the newly
allocated userdatum; the userdatum that is returned holds the new object and
carries no metatable and a nil user value. -/
theorem CreateUserDatum_first_arg_userdatum (env : Env) (s0 : LuaState) (typeName : String)
    (a : Nat) (rest : List LuaValue) (p : Payload) (mt0 : Option Nat) (uv0 : LuaValue)
    (mt : Nat)
    (hud : s0.heap[a]? = some (.udata p mt0 uv0))
    (hmt : lookupName (MetaTableName (env.get_by_name typeName)) s0.registry = some mt) :
    callC (CreateUserDatum env typeName) s0 (.userdata a :: rest)
      = .ok [.userdata s0.heap.length]
          { s0 with heap :=
              s0.heap.set a (.udata p (some mt) (.table (s0.heap.length + 1))) ++
              [.udata (.variant (create (env.get_by_name typeName))) none .nil,
               .table [] none] } := by
  have hlt := length_of_getElem?_some _ _ _ hud
  simp [callC, CreateUserDatum, lua_newuserdata, construct,
    luaL_getmetatable, hmt, push, lua_setmetatable, index2value, pop,
    lua_newtable, lua_setuservalue, Outcome.bind, getElem?_append_cons, set_append_cons,
    getElem_append_cons, getLast?_cons_append_two, take_length_succ_append_two,
    List.getElem?_append_left hlt, hud, List.set_append, hlt, getElem?_set_append]

/-! ## Indexing and assignment (`IndexUserDatum`, `NewIndexUserDatum`) -/

/-- A read of a key whose C text names neither a method nor a property returns
the raw entry of the side table and leaves the state unchanged. -/
theorem IndexUserDatum_fallback (env : Env) (s : LuaState) (T key : String) (a t : Nat)
    (pl : Payload) (mt : Option Nat) (es : List (LuaValue × LuaValue))
    (hm : get_method (env.get_by_name T) (cString key) = none)
    (hp : get_property (env.get_by_name T) (cString key) = none)
    (hud : s.heap[a]? = some (.udata pl mt (.table t)))
    (hside : s.heap[t]? = some (.table es none)) :
    callC (IndexUserDatum env T) s [.userdata a, .string key]
      = .ok [rawget (.string key) es] s := by
  simp [callC, IndexUserDatum, lua_isuserdata, lua_isstring, index2value, lua_tostring, hm, hp,
    indexUserValue, lua_getuservalue, hud, push, lua_pushvalue, lua_gettable, hside, pop,
    Outcome.bind]

/-- A write under a key whose C text names no property is a raw write into the
side table. -/
theorem NewIndexUserDatum_fallback (env : Env) (s : LuaState) (T key : String) (a t : Nat)
    (pl : Payload) (mt : Option Nat) (es : List (LuaValue × LuaValue)) (u : LuaValue)
    (hp : get_property (env.get_by_name T) (cString key) = none)
    (hud : s.heap[a]? = some (.udata pl mt (.table t)))
    (hside : s.heap[t]? = some (.table es none)) :
    callC (NewIndexUserDatum env T) s [.userdata a, .string key, u]
      = .ok [] { s with heap := s.heap.set t (.table (rawset (.string key) u es) none) } := by
  simp [callC, NewIndexUserDatum, lua_isuserdata, lua_isstring, index2value, lua_tostring, hp,
    newIndexUserValue, lua_getuservalue, hud, push, lua_pushvalue, lua_settable, hside, pop,
    Outcome.bind]

/-- C7, as stated, fails for a string with an embedded NUL: `"x\0junk"` is the
name of no method and of no property of `vec3`, yet the bridge hands the key
to rttr as a C string, which ends at the NUL, so the key resolves to the
property `x`: on a new `vec3` the read before any write returns 0, not nil,
and the write of the string `"a"` raises a script error instead of storing it. -/
theorem unknown_field_embedded_nul :
    (vec3.methods.all (fun m => m.name != "x\x00junk")) = true ∧
    (vec3.properties.all (fun p => p.name != "x\x00junk")) = true ∧
    cString "x\x00junk" = "x" ∧
    callC (CreateUserDatum demoEnv "vec3") installedState [] = .ok [.userdata 2] vec3State ∧
    callC (IndexUserDatum demoEnv "vec3") vec3State [.userdata 2, .string "x\x00junk"]
      = .ok [.number 0] vec3State ∧
    callC (NewIndexUserDatum demoEnv "vec3") vec3State
        [.userdata 2, .string "x\x00junk", .string "a"]
      = .error "TODO: need to write to native property, type 'vec3'"
          { vec3State with stack := [.userdata 2, .string "x\x00junk", .string "a"] } := by
  decide

/-- C7, amended: for every string whose C text (the characters before its
first NUL) names neither a method nor a property of T, and every userdatum
whose side table is a table without metatable, `IndexUserDatum` on
`(inst, key)` returns the raw entry of the side table under the whole key,
and after `NewIndexUserDatum` on `(inst, key, u)`, for any script value u,
`IndexUserDatum` on `(inst, key)` returns u; for a userdatum freshly produced
by `T.new()` the read before any write returns nil. -/
theorem unknown_field_fallback (env : Env) (T key : String) (u : LuaValue)
    (hm : get_method (env.get_by_name T) (cString key) = none)
    (hp : get_property (env.get_by_name T) (cString key) = none) :
    (∀ (s : LuaState) (a t : Nat) (pl : Payload) (mt : Option Nat)
        (es : List (LuaValue × LuaValue)),
      s.heap[a]? = some (.udata pl mt (.table t)) →
      s.heap[t]? = some (.table es none) →
      callC (IndexUserDatum env T) s [.userdata a, .string key]
        = .ok [rawget (.string key) es] s ∧
      ∃ s2, callC (NewIndexUserDatum env T) s [.userdata a, .string key, u] = .ok [] s2 ∧
        callC (IndexUserDatum env T) s2 [.userdata a, .string key] = .ok [u] s2) ∧
    (∀ s0 : LuaState,
      ∃ inst s1, callC (CreateUserDatum env T) s0 [] = .ok [inst] s1 ∧
        callC (IndexUserDatum env T) s1 [inst, .string key] = .ok [.nil] s1 ∧
        ∃ s2, callC (NewIndexUserDatum env T) s1 [inst, .string key, u] = .ok [] s2 ∧
          callC (IndexUserDatum env T) s2 [inst, .string key] = .ok [u] s2) := by
  have general : ∀ (s : LuaState) (a t : Nat) (pl : Payload) (mt : Option Nat)
      (es : List (LuaValue × LuaValue)),
      s.heap[a]? = some (.udata pl mt (.table t)) →
      s.heap[t]? = some (.table es none) →
      callC (IndexUserDatum env T) s [.userdata a, .string key]
        = .ok [rawget (.string key) es] s ∧
      ∃ s2, callC (NewIndexUserDatum env T) s [.userdata a, .string key, u] = .ok [] s2 ∧
        callC (IndexUserDatum env T) s2 [.userdata a, .string key] = .ok [u] s2 := by
    intro s a t pl mt es hud hside
    have hne := addr_ne_of_udata_table _ _ _ _ _ _ _ _ hud hside
    have hlt2 := length_of_getElem?_some _ _ _ hside
    refine ⟨IndexUserDatum_fallback env s T key a t pl mt es hm hp hud hside,
      _, NewIndexUserDatum_fallback env s T key a t pl mt es u hp hud hside, ?_⟩
    refine (IndexUserDatum_fallback env _ T key a t pl mt (rawset (.string key) u es) hm hp
      ?_ ?_).trans ?_
    · show (s.heap.set t _)[a]? = _
      rw [List.getElem?_set_ne (Ne.symm hne)]
      exact hud
    · show (s.heap.set t _)[t]? = _
      rw [List.getElem?_set_self hlt2]
    · rw [rawget_rawset]
  refine ⟨general, ?_⟩
  intro s0
  refine ⟨_, _, CreateUserDatum_empty_stack env s0 T, ?_⟩
  have h := general
    { s0 with heap := s0.heap ++
        [.udata (.variant (create (env.get_by_name T)))
            (lookupName (MetaTableName (env.get_by_name T)) s0.registry)
            (.table (s0.heap.length + 1)),
         .table [] none] }
    s0.heap.length (s0.heap.length + 1) _ _ []
    (getElem?_append_cons _ _ _) (getElem?_append_cons_succ _ _ _ _)
  exact ⟨by simpa [rawget] using h.1, h.2⟩

/-- Witness of `unknown_field_fallback`: the field `tag` of a `vec3`, assigned
42 (scenario 5 of the specification). -/
theorem unknown_field_fallback_witness :
    (callC (IndexUserDatum demoEnv "vec3") vec3State [.userdata 2, .string "tag"]
        = .ok [rawget (.string "tag") []] vec3State ∧
      ∃ s2, callC (NewIndexUserDatum demoEnv "vec3") vec3State
            [.userdata 2, .string "tag", .number 42] = .ok [] s2 ∧
        callC (IndexUserDatum demoEnv "vec3") s2 [.userdata 2, .string "tag"]
          = .ok [.number 42] s2) ∧
    ∃ inst s1, callC (CreateUserDatum demoEnv "vec3") installedState [] = .ok [inst] s1 ∧
      callC (IndexUserDatum demoEnv "vec3") s1 [inst, .string "tag"] = .ok [.nil] s1 ∧
      ∃ s2, callC (NewIndexUserDatum demoEnv "vec3") s1 [inst, .string "tag", .number 42]
            = .ok [] s2 ∧
        callC (IndexUserDatum demoEnv "vec3") s2 [inst, .string "tag"] = .ok [.number 42] s2 :=
  ⟨(unknown_field_fallback demoEnv "vec3" "tag" (.number 42) rfl rfl).1
      vec3State 2 3 _ _ [] rfl rfl,
   (unknown_field_fallback demoEnv "vec3" "tag" (.number 42) rfl rfl).2 installedState⟩

/-- An assignment of a number under a key whose C text names an `int` or
`float` property writes the coerced value through the setter and the raw
value into the side table, under the whole key. -/
theorem NewIndexUserDatum_property (env : Env) (s : LuaState) (T key : String) (a t : Nat)
    (p : PropertyDesc) (fs : List (String × Scalar)) (mt : Option Nat)
    (es : List (LuaValue × LuaValue)) (k : Rat) (n : Int)
    (hp : get_property (env.get_by_name T) (cString key) = some p)
    (hud : s.heap[a]? = some (.udata (.variant (.object T fs)) mt (.table t)))
    (hside : s.heap[t]? = some (.table es none)) :
    (p.type = .int → castToInt k = some n →
      callC (NewIndexUserDatum env T) s [.userdata a, .string key, .number k]
        = .ok [] { s with heap :=
            (s.heap.set a (.udata (.variant (.object T (setField p.name (.int n) fs))) mt
              (.table t))).set t (.table (rawset (.string key) (.number k) es) none) }) ∧
    (p.type = .float →
      callC (NewIndexUserDatum env T) s [.userdata a, .string key, .number k]
        = .ok [] { s with heap :=
            (s.heap.set a (.udata (.variant (.object T (setField p.name
                (.float (env.toFloat k)) fs))) mt
              (.table t))).set t (.table (rawset (.string key) (.number k) es) none) }) := by
  have hne := addr_ne_of_udata_table _ _ _ _ _ _ _ _ hud hside
  have hlt := length_of_getElem?_some _ _ _ hud
  constructor
  · intro hty hc
    simp [callC, NewIndexUserDatum, lua_isuserdata, lua_isstring, index2value, lua_tostring, hp,
      lua_type, LuaValue.luaType, lua_tonumber, hty, hc, assertSetValue, lua_touserdata, hud,
      PropertyDesc.set_value, Argument.type,
      newIndexUserValue, lua_getuservalue, push, lua_pushvalue, lua_settable, hside, pop,
      Outcome.bind, hlt, List.getElem?_set, hne, Ne.symm hne]
  · intro hty
    simp [callC, NewIndexUserDatum, lua_isuserdata, lua_isstring, index2value, lua_tostring, hp,
      lua_type, LuaValue.luaType, lua_tonumber, hty, assertSetValue, lua_touserdata, hud,
      PropertyDesc.set_value, Argument.type,
      newIndexUserValue, lua_getuservalue, push, lua_pushvalue, lua_settable, hside, pop,
      Outcome.bind, hlt, List.getElem?_set, hne, Ne.symm hne]

/-- C6, as stated, fails: after `inst.n = 1.5` on a new `Counter`, whose
property `n` is an `int`, the side table holds 1.5 under `"n"` but the native
getter yields 1, and so does the script read `inst.n`. -/
theorem property_mirror_int_truncates :
    callC (CreateUserDatum demoEnv "Counter") installedState []
      = .ok [.userdata 2] counterState ∧
    callC (NewIndexUserDatum demoEnv "Counter") counterState
        [.userdata 2, .string "n", .number (mkRat 3 2)] = .ok [] counterWritten ∧
    nativeGetter counterWritten 2 ⟨"n", .int⟩ "Counter" = some (.int 1) ∧
    sideTableRawGet counterWritten 2 (.string "n") = some (.number (mkRat 3 2)) ∧
    callC (IndexUserDatum demoEnv "Counter") counterWritten [.userdata 2, .string "n"]
      = .ok [.number 1] counterWritten := by
  decide

/-- C6, amended: for every userdatum of a type T with a registered `int` or
`float` property (named by the C text of the key) and every number k (for an `int` property: whose truncation
is representable as `int`), the assignment returns normally and afterwards the
raw read of the side table under the property name yields k, the raw assigned
value, while the native getter yields k coerced to the declared type: k
truncated toward zero for an `int` property, `(float)k` for a `float` one. -/
theorem property_mirror (env : Env) (s : LuaState) (T key : String) (a t : Nat)
    (p : PropertyDesc) (fs : List (String × Scalar)) (mt : Option Nat)
    (es : List (LuaValue × LuaValue)) (k : Rat)
    (hp : get_property (env.get_by_name T) (cString key) = some p)
    (hud : s.heap[a]? = some (.udata (.variant (.object T fs)) mt (.table t)))
    (hside : s.heap[t]? = some (.table es none)) :
    (p.type = .int → ∀ n, castToInt k = some n →
      ∃ s1, callC (NewIndexUserDatum env T) s [.userdata a, .string key, .number k] = .ok [] s1 ∧
        n = Int.tdiv k.num k.den ∧
        nativeGetter s1 a p T = some (.int n) ∧
        sideTableRawGet s1 a (.string key) = some (.number k)) ∧
    (p.type = .float →
      ∃ s1, callC (NewIndexUserDatum env T) s [.userdata a, .string key, .number k] = .ok [] s1 ∧
        nativeGetter s1 a p T = some (.float (env.toFloat k)) ∧
        sideTableRawGet s1 a (.string key) = some (.number k)) := by
  have hne := addr_ne_of_udata_table _ _ _ _ _ _ _ _ hud hside
  have hlt := length_of_getElem?_some _ _ _ hud
  have hlt2 := length_of_getElem?_some _ _ _ hside
  constructor
  · intro hty n hc
    refine ⟨_, (NewIndexUserDatum_property env s T key a t p fs mt es k n hp hud hside).1 hty hc,
      ?_, ?_, ?_⟩
    · unfold castToInt at hc
      simp only [] at hc
      split at hc
      · exact (Option.some.inj hc).symm
      · exact absurd hc (by simp)
    · simp only [nativeGetter, blockVariant, getElem?_set_set_left _ _ _ _ _ hne hlt,
        Option.map, PropertyDesc.get_value, getField_setField, Scalar.toVariant, if_true]
    · simp only [sideTableRawGet, getElem?_set_set_left _ _ _ _ _ hne hlt,
        getElem?_set_set_right _ _ _ _ _ hlt2, rawget_rawset]
  · intro hty
    refine ⟨_, (NewIndexUserDatum_property env s T key a t p fs mt es k 0 hp hud hside).2 hty,
      ?_, ?_⟩
    · simp only [nativeGetter, blockVariant, getElem?_set_set_left _ _ _ _ _ hne hlt,
        Option.map, PropertyDesc.get_value, getField_setField, Scalar.toVariant, if_true]
    · simp only [sideTableRawGet, getElem?_set_set_left _ _ _ _ _ hne hlt,
        getElem?_set_set_right _ _ _ _ _ hlt2, rawget_rawset]

/-- Witness of `property_mirror`: `inst.n = 7` on a new `Counter` and
`v.x = 1.5` on a new `vec3`. -/
theorem property_mirror_witness :
    (∃ s1, callC (NewIndexUserDatum demoEnv "Counter") counterState
          [.userdata 2, .string "n", .number 7] = .ok [] s1 ∧
        (7 : Int) = Int.tdiv (7 : Rat).num (7 : Rat).den ∧
        nativeGetter s1 2 ⟨"n", .int⟩ "Counter" = some (.int 7) ∧
        sideTableRawGet s1 2 (.string "n") = some (.number 7)) ∧
    (∃ s1, callC (NewIndexUserDatum demoEnv "vec3") vec3State
          [.userdata 2, .string "x", .number (mkRat 3 2)] = .ok [] s1 ∧
        nativeGetter s1 2 ⟨"x", .float⟩ "vec3" = some (.float (demoEnv.toFloat (mkRat 3 2))) ∧
        sideTableRawGet s1 2 (.string "x") = some (.number (mkRat 3 2))) :=
  ⟨(property_mirror demoEnv counterState "Counter" "n" 2 3 ⟨"n", .int⟩ _ _ [] 7 rfl rfl rfl).1
      rfl 7 (by decide),
   (property_mirror demoEnv vec3State "vec3" "x" 2 3 ⟨"x", .float⟩ _ _ [] (mkRat 3 2)
      rfl rfl rfl).2 rfl⟩

/-- C8, the code at the failing case: for an assignment of a number to a
valid property (named by the C text of the key) whose declared type is
neither `int` nor `float`,
`NewIndexUserDatum` raises no error of its own and calls no setter; it does
exactly what the plain side-table write does. -/
theorem NewIndexUserDatum_other_type_skips (env : Env) (s : LuaState) (T key : String)
    (a : Nat) (k : Rat) (p : PropertyDesc)
    (hstack : s.stack = [.userdata a, .string key, .number k])
    (hp : get_property (env.get_by_name T) (cString key) = some p)
    (hint : p.type ≠ .int) (hfloat : p.type ≠ .float) :
    NewIndexUserDatum env T s = newIndexUserValue s := by
  simp [NewIndexUserDatum, lua_isuserdata, lua_isstring, index2value, lua_tostring, hstack, hp,
    lua_type, LuaValue.luaType, hint, hfloat]

/-- Witness of `NewIndexUserDatum_other_type_skips`: `inst.label = 5` on a new
`Counter`, whose property `label` is a `std::string`, returns normally; the
object is unchanged and the side table holds 5 under `"label"`. -/
theorem NewIndexUserDatum_other_type_skips_witness :
    NewIndexUserDatum demoEnv "Counter"
        { counterState with stack := [.userdata 2, .string "label", .number 5] }
      = newIndexUserValue
        { counterState with stack := [.userdata 2, .string "label", .number 5] } ∧
    callC (NewIndexUserDatum demoEnv "Counter") counterState
        [.userdata 2, .string "label", .number 5] = .ok [] counterLabelled :=
  ⟨NewIndexUserDatum_other_type_skips demoEnv
      { counterState with stack := [.userdata 2, .string "label", .number 5] }
      "Counter" "label" 2 5 ⟨"label", .other "std::string"⟩ rfl rfl (by decide) (by decide),
   by decide⟩

/-! ## Method calls on a userdatum (`InvokeFuncOnUserDatum`) -/

/-- C2, the code at the failing case: for a call `inst:m(a1, ..., aN)` with
N ≥ 1 the stack holds the receiver and the N arguments, the stack offset is
computed as N - N = 0, parameter 0 is marshalled from slot 1, the receiver,
and the call ends in a script error before the thunk runs. -/
theorem InvokeMethod_sugar_reads_receiver (s : LuaState) (m : MethodDesc)
    (objTarget : Instance) (a : Nat) (args : List LuaValue)
    (hstack : s.stack = .userdata a :: args) (hlen : args.length = m.params.length)
    (hpos : 0 < m.params.length) :
    InvokeMethod s m objTarget
      = .error "Don't know this lua type 'userdata', parameter 0 when calling 's'" s := by
  have h1 : lua_gettop s > m.params.length := by simp [lua_gettop, hstack, hlen]
  simp only [InvokeMethod, h1, if_true, ne_eq, not_true_eq_false, if_false]
  cases hps : m.params with
  | nil => simp [hps] at hpos
  | cons p ps =>
    simp [fillArgs, marshalArg, lua_type, index2value, hstack, LuaValue.luaType, Outcome.bind,
      luaL_error, lua_typename]
    rfl

/-- Witness of `InvokeMethod_sugar_reads_receiver`: `inst:add(5)` on a new
`Counter`; the read of `inst.add` returns the closure, and calling it with the
receiver and 5 raises the error. -/
theorem InvokeMethod_sugar_reads_receiver_witness :
    callC (IndexUserDatum demoEnv "Counter") counterState [.userdata 2, .string "add"]
      = .ok [.cclosure .InvokeFuncOnUserDatum (.udata 4)] methodState ∧
    callC (InvokeFuncOnUserDatum demoEnv 4) methodState [.userdata 2, .number 5]
      = .error "Don't know this lua type 'userdata', parameter 0 when calling 's'"
          { methodState with stack := [.userdata 2, .number 5] } ∧
    InvokeMethod { methodState with stack := [.userdata 2, .number 5] } Counter_add (.ref 2)
      = .error "Don't know this lua type 'userdata', parameter 0 when calling 's'"
          { methodState with stack := [.userdata 2, .number 5] } :=
  ⟨by decide, by decide,
   InvokeMethod_sugar_reads_receiver { methodState with stack := [.userdata 2, .number 5] }
     Counter_add (.ref 2) 2 [.number 5] rfl rfl (by decide)⟩

/-- Witness of `CreateUserDatum_first_arg_userdatum`: `vec3.new(inst)` with a
`Counter` instance as argument; the instance gets the metatable of `vec3` and
a new side table, the new `vec3` userdatum gets neither. -/
theorem CreateUserDatum_first_arg_userdatum_witness :
    callC (CreateUserDatum demoEnv "vec3") counterState [.userdata 2]
      = .ok [.userdata 4]
          { counterState with heap :=
              [.table [] none, .table [] none,
               .udata (.variant (.object "Counter"
                 [("n", .int 0), ("label", .blob "std::string" "")])) (some 0) (.table 5),
               .table [] none,
               .udata (.variant (.object "vec3"
                 [("x", .float 0), ("y", .float 0), ("z", .float 0)])) none .nil,
               .table [] none] } :=
  CreateUserDatum_first_arg_userdatum demoEnv counterState "vec3" 2 [] _ (some 1) (.table 3) 0
    rfl (by decide)

end MGE
